import Mathlib

/-!
Verification development for the shinchan.ai / payflow.ai query-orchestration
pipeline.  The Python sources are shallowly embedded: pure functions become
Lean functions over explicit data models, stateful methods become functions
from a state record to a (result, state) pair, machine floats are modelled as
exact rationals, and the external LLM / database services are passed in as
oracle parameters.  All definitions are executable.
-/

namespace Shinchan

/-! ## Python string primitives

The Python sources use `str.upper()`, `str.lower()`, `str.strip()`,
`str.split()` (whitespace split, empty tokens dropped), substring membership
(`in`), and `str.startswith`.  All inputs of interest are ASCII, so the
Unicode-aware Python methods coincide with the ASCII maps modelled here.
They are implemented over `List Char` so that concrete evaluation reduces in
the kernel. -/

/-- ASCII model of Python `str.upper` on a single character. -/
def upChar (c : Char) : Char :=
  if 'a' ≤ c ∧ c ≤ 'z' then Char.ofNat (c.toNat - 32) else c

/-- ASCII model of Python `str.lower` on a single character. -/
def lowChar (c : Char) : Char :=
  if 'A' ≤ c ∧ c ≤ 'Z' then Char.ofNat (c.toNat + 32) else c

/-- Python `str.upper()`. -/
def pyUpper (s : String) : String := ⟨s.data.map upChar⟩

/-- Python `str.lower()`. -/
def pyLower (s : String) : String := ⟨s.data.map lowChar⟩

/-- Whitespace characters recognised by Python `str.strip()` / `str.split()`. -/
def isWs (c : Char) : Bool :=
  c = ' ' ∨ c = '\t' ∨ c = '\n' ∨ c = '\r' ∨ c = '\x0b' ∨ c = '\x0c'

/-- Python `str.strip()`: drop leading and trailing whitespace. -/
def pyStrip (s : String) : String :=
  ⟨((s.data.dropWhile isWs).reverse.dropWhile isWs).reverse⟩

/-- Helper for `pySplit`: accumulate the current token while scanning. -/
def splitWsAux : List Char → List Char → List String
  | acc, [] => if acc.isEmpty then [] else [⟨acc.reverse⟩]
  | acc, c :: cs =>
    if isWs c then
      if acc.isEmpty then splitWsAux [] cs
      else ⟨acc.reverse⟩ :: splitWsAux [] cs
    else splitWsAux (c :: acc) cs

/-- Python `str.split()` with no argument: split on whitespace runs,
discarding empty tokens. -/
def pySplit (s : String) : List String := splitWsAux [] s.data

/-- Does `pat` match at the head of `s`? -/
def matchesAt : List Char → List Char → Bool
  | [], _ => true
  | _ :: _, [] => false
  | p :: ps, c :: cs => p = c && matchesAt ps cs

/-- Helper for `strIn`: does `pat` occur anywhere in `s`? -/
def subAny (pat : List Char) : List Char → Bool
  | [] => pat.isEmpty
  | c :: cs => matchesAt pat (c :: cs) || subAny pat cs

/-- Python `pat in s` substring membership. -/
def strIn (pat s : String) : Bool := subAny pat.data s.data

/-- Python `s.startswith(pat)`. -/
def pyStartsWith (s pat : String) : Bool := matchesAt pat.data s.data

/-! ## Safety validator

Model of `DataManager.validate_query` (src/payflow.ai.v1/data_manager.py,
lines 162-186; the v2 copy at services/data_manager.py lines 141-157 is
identical in behaviour). -/

/-- The `DANGEROUS_KEYWORDS` set of `DataManager` (a Python set; iteration
order is irrelevant because the loop only ever returns `False` on a hit). -/
def DANGEROUS_KEYWORDS : List String :=
  ["DROP", "DELETE", "UPDATE", "INSERT", "ALTER", "TRUNCATE", "CREATE", "REPLACE"]

/-- Model of `DataManager.validate_query`: uppercase and strip the SQL text,
reject when a dangerous keyword occurs as a standalone whitespace-delimited
token, then reject statements that do not start with SELECT or WITH. -/
def validate_query (sql : String) : Bool :=
  let sql_upper := pyStrip (pyUpper sql)
  if DANGEROUS_KEYWORDS.any (fun kw => (pySplit sql_upper).contains kw) then
    false
  else if ¬ (pyStartsWith sql_upper "SELECT") ∧ ¬ (pyStartsWith sql_upper "WITH") then
    false
  else
    true

/-! ## Rounding

Python `round(x, n)` rounds half to even (banker's rounding).  Floats are
modelled as exact rationals, so `round(x, 3)` becomes: scale by 1000, round
half to even to an integer, scale back. -/

/-- Round half to even: the integer nearest to `q`, ties going to the even
neighbour.  Model of Python `round(q)` on exact values. -/
def rhe (q : ℚ) : ℤ :=
  if q - ⌊q⌋ < 1/2 then ⌊q⌋
  else if 1/2 < q - ⌊q⌋ then ⌊q⌋ + 1
  else if 2 ∣ ⌊q⌋ then ⌊q⌋ else ⌊q⌋ + 1

/-- Python `round(q, 3)`. -/
def round3 (q : ℚ) : ℚ := (rhe (q * 1000) : ℚ) / 1000

/-- Python `round(q, 2)`. -/
def round2 (q : ℚ) : ℚ := (rhe (q * 100) : ℚ) / 100

/-! ## Hypothesis scoring

Model of `InsightEngine.score_hypotheses` (src/analytics.py lines 243-282;
the payflow v2 copy at services/analytics.py lines 173-185 is identical in
behaviour).  A hypothesis is modelled by the fields the scorer reads
(`required_signals`, `supporting_signals`, both Python sets) plus its `id`;
the remaining JSON fields (name, description, business_implication) are
inert payload that scoring neither reads nor writes. -/

structure Hypothesis where
  id : String
  required_signals : Finset String
  supporting_signals : Finset String
deriving DecidableEq

/-- The pre-rounding scoring formula of `score_hypotheses`:
`0.7 * required_matched / total_required + 0.3 * supporting_matched / total_supporting`,
the supporting term being 0 for an empty supporting set. -/
def rawScore (h : Hypothesis) (signals : Finset String) : ℚ :=
  let required_score : ℚ :=
    ((h.required_signals ∩ signals).card : ℚ) / (h.required_signals.card : ℚ)
  let supporting_score : ℚ :=
    if h.supporting_signals = ∅ then 0
    else ((h.supporting_signals ∩ signals).card : ℚ) / (h.supporting_signals.card : ℚ)
  0.7 * required_score + 0.3 * supporting_score

/-- The confidence `score_hypotheses` pairs with a hypothesis:
`round(score, 3)`. -/
def confidence (h : Hypothesis) (signals : Finset String) : ℚ :=
  round3 (rawScore h signals)

/-- Stable insertion into a list sorted descending by the second component:
the new pair goes immediately before the first entry whose score is ≤ its
own. -/
def insertScoreDesc (p : Hypothesis × ℚ) :
    List (Hypothesis × ℚ) → List (Hypothesis × ℚ)
  | [] => [p]
  | q :: qs => if q.2 ≤ p.2 then p :: q :: qs else q :: insertScoreDesc p qs

/-- Stable sort, descending by score.  Model of Python
`scored.sort(key=lambda x: x[1], reverse=True)`, which is a stable sort;
inserting from the right keeps equal-score entries in list order. -/
def sortScoreDesc (l : List (Hypothesis × ℚ)) : List (Hypothesis × ℚ) :=
  l.foldr insertScoreDesc []

/-- Model of `InsightEngine.score_hypotheses`: skip hypotheses with an empty
`required_signals` set, score the rest, sort descending by score. -/
def score_hypotheses (hyps : List Hypothesis) (signals : Finset String) :
    List (Hypothesis × ℚ) :=
  let scored := hyps.filterMap (fun h =>
    if h.required_signals = ∅ then none else some (h, confidence h signals))
  sortScoreDesc scored

/-! ## DataFrame model

A pandas DataFrame is modelled as an ordered list of named, dtype-tagged
columns.  Numeric cells are exact rationals, `none` standing for NaN/null
(pandas int64 columns cannot hold nulls, so their cells are always `some`).
Object (string) columns hold optional strings.  All statistics skip nulls,
as pandas does. -/

inductive Dtype
  | float64
  | float32
  | int64
  | obj
deriving DecidableEq

inductive ColVals
  | nums (xs : List (Option ℚ))
  | strs (xs : List (Option String))
deriving DecidableEq

structure Column where
  name : String
  dtype : Dtype
  vals : ColVals
deriving DecidableEq

structure DataFrame where
  cols : List Column
deriving DecidableEq

/-- Number of cells in a column. -/
def ColVals.size : ColVals → ℕ
  | .nums xs => xs.length
  | .strs xs => xs.length

/-- Row count of the frame (all columns share one length). -/
def DataFrame.nrows (df : DataFrame) : ℕ :=
  match df.cols with
  | [] => 0
  | c :: _ => c.vals.size

/-- Pandas `df.empty`: true when the frame has no rows or no columns. -/
def DataFrame.isEmpty (df : DataFrame) : Bool :=
  df.cols.isEmpty || df.nrows == 0

/-- Numeric cells of a column (empty for an object column). -/
def Column.numVals (c : Column) : List (Option ℚ) :=
  match c.vals with
  | .nums xs => xs
  | .strs _ => []

/-- String cells of a column (empty for a numeric column). -/
def Column.strVals (c : Column) : List (Option String) :=
  match c.vals with
  | .strs xs => xs
  | .nums _ => []

/-- Dtype test used throughout `extract_signals`:
Python `df[col].dtype in ['float64', 'int64']` and friends. -/
def Column.isNum64 (c : Column) : Bool :=
  c.dtype == .float64 || c.dtype == .int64

/-- Lowercased column names: Python `set(df.columns.str.lower())`
(membership in the list models membership in the set). -/
def DataFrame.lowerNames (df : DataFrame) : List String :=
  df.cols.map (fun c => pyLower c.name)

/-- Column lookup by exact name, Python `df[name]`.  This accessor is
total; where `extract_signals` performs such an access outside a
`try/except` (the `transaction_status` and `transaction_type` blocks), the
uncaught KeyError/AttributeError Python raises on a guard-passing but
exact-name-missing (or, for the `.str` accessor, non-string) column is
modelled separately by `extractRaises` and `extract_signals_run` below;
every other exact-name access of the function sits inside a `try/except`
that swallows the error, where a missing column and a caught exception
coincide. -/
def DataFrame.getCol (df : DataFrame) (name : String) : Option Column :=
  df.cols.find? (fun c => c.name == name)

/-- Numeric cells of the named column; empty when absent or non-numeric. -/
def DataFrame.colNums (df : DataFrame) (name : String) : List (Option ℚ) :=
  ((df.getCol name).map Column.numVals).getD []

/-- String cells of the named column; empty when absent or numeric. -/
def DataFrame.colStrs (df : DataFrame) (name : String) : List (Option String) :=
  ((df.getCol name).map Column.strVals).getD []

/-! ### Null-skipping series statistics -/

/-- Pandas `Series.dropna()`. -/
def dropna (xs : List (Option ℚ)) : List ℚ := xs.filterMap id

/-- Maximum of a list of rationals (none when empty). -/
def listMax (xs : List ℚ) : Option ℚ :=
  xs.foldl (fun acc x =>
    match acc with
    | none => some x
    | some m => some (max m x)) none

/-- Pandas `Series.max()`: nulls skipped, NaN (none) when nothing remains. -/
def seriesMax (xs : List (Option ℚ)) : Option ℚ := listMax (dropna xs)

/-- Sum of a list of rationals. -/
def listSum (xs : List ℚ) : ℚ := xs.foldl (· + ·) 0

/-- Mean of a list of rationals (none when empty). -/
def listMean (xs : List ℚ) : Option ℚ :=
  if xs.length = 0 then none else some (listSum xs / (xs.length : ℚ))

/-- Pandas `Series.mean()`: nulls skipped, NaN (none) when nothing remains. -/
def seriesMean (xs : List (Option ℚ)) : Option ℚ := listMean (dropna xs)

/-- Numerator of the sample variance: the sum of squared deviations from
the mean.  `Series.std() > 0` is equivalent to this being positive (for at
least two values), which avoids modelling the square root. -/
def varNum (xs : List ℚ) : ℚ :=
  match listMean xs with
  | none => 0
  | some m => listSum (xs.map (fun x => (x - m) ^ 2))

/-- Exact encoding of the float test `vals.std() / vals.mean() > 0.3`
(sample std, ddof = 1), used by the coefficient-of-variation rules.
For mean > 0 it is equivalent to `variance > 0.09 * mean ^ 2` (squaring the
positive inequality, avoiding the square root); for mean = 0 the float
division yields +inf exactly when std > 0 (NaN otherwise, and NaN
comparisons are false); for mean < 0 the quotient is ≤ 0, so the test is
false. -/
def cvGt03 (xs : List ℚ) : Bool :=
  match listMean xs with
  | none => false
  | some m =>
    if m > 0 then
      decide (varNum xs / ((xs.length : ℚ) - 1) > 0.09 * m ^ 2)
    else if m = 0 then decide (varNum xs > 0)
    else false

/-- Ascending stable insertion, for `median`. -/
def insertAsc (x : ℚ) : List ℚ → List ℚ
  | [] => [x]
  | y :: ys => if x ≤ y then x :: y :: ys else y :: insertAsc x ys

/-- Ascending sort, for `median`. -/
def sortAsc (xs : List ℚ) : List ℚ := xs.foldr insertAsc []

/-- Pandas `Series.median()`: nulls dropped, middle element (odd count) or
mean of the two middle elements (even count), NaN (none) when empty. -/
def medianQ (xs : List (Option ℚ)) : Option ℚ :=
  let v := sortAsc (dropna xs)
  let n := v.length
  if n = 0 then none
  else if n % 2 = 1 then v[n / 2]?
  else
    match v[n / 2 - 1]?, v[n / 2]? with
    | some a, some b => some ((a + b) / 2)
    | _, _ => none

/-- Row selection `df[mask][col]`: keep the cells of `xs` at the positions
where `mask` is true. -/
def selectRows (mask : List Bool) (xs : List (Option ℚ)) : List (Option ℚ) :=
  (mask.zip xs).filterMap (fun bx => if bx.1 then some bx.2 else none)

/-! ### Signal rules (src/analytics.py, `InsightEngine.extract_signals`,
lines 50-241) -/

/-- Lines 74-83: a failure-rate-named numeric column whose (non-null)
maximum exceeds 5.0; this also sets the `failure_detected` flag. -/
def failRateColHit (df : DataFrame) : Bool :=
  df.cols.any (fun c =>
    let cl := pyLower c.name
    (strIn "failure" cl || strIn "fail" cl) &&
    (strIn "rate" cl || strIn "pct" cl || strIn "percent" cl) &&
    (c.dtype == .float64 || c.dtype == .int64 || c.dtype == .float32) &&
    (match seriesMax c.numVals with
     | some m => decide (m > 5)
     | none => false))

/-- Lines 86-92: derived failure rate from the `transaction_status` column:
the proportion of rows whose uppercased status equals FAILED exceeds 5%.
(The exact-name access and `.str` accessor of line 89 raise uncaught on a
case-mismatched or non-string column; that path is modelled by
`extractRaises`, under which this definition is never consulted.) -/
def statusFailRateGt5 (df : DataFrame) : Bool :=
  let total := df.nrows
  if total = 0 then false
  else
    let failed := ((df.colStrs "transaction_status").filter (fun x =>
      match x with
      | some s => pyUpper s == "FAILED"
      | none => false)).length
    decide ((failed : ℚ) / (total : ℚ) * 100 > 5)

/-- One cell of `df[col] / df[total_col] * 100 > 5`.  Float division by
zero gives +inf for a positive numerator (test true), -inf for a negative
one and NaN for 0/0 (test false in both); null cells are NaN. -/
def divGt5At (x y : Option ℚ) : Bool :=
  match x, y with
  | some a, some b => if b = 0 then decide (a > 0) else decide (a / b * 100 > 5)
  | _, _ => false

/-- Pandas `(xs / ys * 100).max() > 5.0`: the null-skipping maximum exceeds
5 exactly when some cell-wise quotient does. -/
def divMaxGt5 (xs ys : List (Option ℚ)) : Bool :=
  (xs.zip ys).any (fun p => divGt5At p.1 p.2)

/-- Lines 95-110: a failed-count column against the first total/count
column, ratio above 5%. -/
def failedTotalRatioGt5 (df : DataFrame) : Bool :=
  df.cols.any (fun c =>
    let cl := pyLower c.name
    (strIn "failed" cl || strIn "failures" cl) && c.isNum64 &&
    (match df.cols.find? (fun tc =>
        strIn "total" (pyLower tc.name) || strIn "count" (pyLower tc.name)) with
     | none => false
     | some tc => tc.isNum64 && divMaxGt5 c.numVals tc.numVals))

/-- Lines 114-126: some numeric non-hour column whose maximum exceeds its
mean by more than 50% of the (positive) mean. -/
def peakSensitiveHit (df : DataFrame) : Bool :=
  df.cols.any (fun c =>
    c.isNum64 && (pyLower c.name != "hour_of_day") &&
    (let vals := dropna c.numVals
     vals.length > 1 &&
     (match listMean vals, listMax vals with
      | some m, some mx => decide (m > 0) && decide ((mx - m) / m > 0.5)
      | _, _ => false)))

/-- Lines 145-155: a fail/rate numeric column with nonzero standard
deviation (equivalently, positive sample-variance numerator). -/
def deviceSensitivityHit (df : DataFrame) : Bool :=
  df.cols.any (fun c =>
    let cl := pyLower c.name
    (strIn "fail" cl || strIn "rate" cl) && c.isNum64 &&
    (let vals := dropna c.numVals
     vals.length > 1 && decide (varNum vals > 0)))

/-- Lines 159-172: the weekend-row mean of a fail/rate column exceeds 1.5
times the (positive) weekday-row mean, both groups non-empty. -/
def maintenanceHit (df : DataFrame) : Bool :=
  let wkMask := (df.colNums "is_weekend").map (fun x => x == some (1 : ℚ))
  let wdMask := (df.colNums "is_weekend").map (fun x => x == some (0 : ℚ))
  df.cols.any (fun c =>
    let cl := pyLower c.name
    (strIn "fail" cl || strIn "rate" cl) && c.isNum64 &&
    (let wk := selectRows wkMask c.numVals
     let wd := selectRows wdMask c.numVals
     !wk.isEmpty && !wd.isEmpty &&
     (match seriesMean wk, seriesMean wd with
      | some wkr, some wdr => decide (wdr > 0) && decide (wkr > wdr * 1.5)
      | _, _ => false)))

/-- Lines 176-180 and 190-194: the `transaction_type` values intersect
the externally-dependent category set.  (A numeric column of that exact
name intersects the string set emptily without raising, as here; the
exact-name access of lines 177/191 raises an uncaught KeyError when only a
differently-cased column exists — that path is modelled by
`extractRaises`.) -/
def externalTypesHit (df : DataFrame) : Bool :=
  (df.colStrs "transaction_type").any (fun x =>
    x == some "Bill Payment" || x == some "Recharge")

/-- Lines 198-203: a retry-named numeric column with maximum above 2.0
(a NaN maximum compares false). -/
def retryColHit (df : DataFrame) : Bool :=
  df.cols.any (fun c =>
    strIn "retry" (pyLower c.name) && c.isNum64 &&
    (match seriesMax c.numVals with
     | some m => decide (m > 2)
     | none => false))

/-- Lines 211-220: among rows with `amount_inr` above the column median,
the `fraud_flag` mean exceeds 5% (selection non-empty). -/
def highValueRiskHit (df : DataFrame) : Bool :=
  match medianQ (df.colNums "amount_inr") with
  | none => false
  | some med =>
    let mask := (df.colNums "amount_inr").map (fun x =>
      match x with
      | some a => decide (a > med)
      | none => false)
    let hv := selectRows mask (df.colNums "fraud_flag")
    mask.any (fun b => b) &&
    (match seriesMean hv with
     | some r => decide (r > 0.05)
     | none => false)

/-- Lines 227-238: a fail/rate numeric column whose coefficient of
variation exceeds 0.3 (in the presence of a bank dimension). -/
def bankConcentrationHit (df : DataFrame) : Bool :=
  df.cols.any (fun c =>
    let cl := pyLower c.name
    (strIn "fail" cl || strIn "rate" cl) && c.isNum64 &&
    (let vals := dropna c.numVals
     vals.length > 1 && cvGt03 vals))

/-- Lines 74-83, first HIGH_FAILURE_RATE block (also the
`failure_detected` flag). -/
def hfrStep1 (df : DataFrame) (s : Finset String) : Finset String :=
  if failRateColHit df then insert "HIGH_FAILURE_RATE" s else s

/-- Lines 86-92, second HIGH_FAILURE_RATE block, guarded by the flag. -/
def hfrStep2 (df : DataFrame) (s : Finset String) : Finset String :=
  if !failRateColHit df && df.lowerNames.contains "transaction_status"
      && statusFailRateGt5 df then insert "HIGH_FAILURE_RATE" s else s

/-- Lines 95-110, third HIGH_FAILURE_RATE block, guarded by the flag. -/
def hfrStep3 (df : DataFrame) (s : Finset String) : Finset String :=
  if !failRateColHit df && failedTotalRatioGt5 df then
    insert "HIGH_FAILURE_RATE" s else s

/-- Lines 114-126, PEAK_SENSITIVE. -/
def peakStep (df : DataFrame) (s : Finset String) : Finset String :=
  if df.lowerNames.contains "hour_of_day" && peakSensitiveHit df then
    insert "PEAK_SENSITIVE" s else s

/-- Lines 130-141, NETWORK_FRAGILITY: asserted once the dimension is
present (the inner variation loop only re-adds the same signal, a no-op). -/
def networkStep (df : DataFrame) (s : Finset String) : Finset String :=
  if df.lowerNames.contains "network_type" then
    insert "NETWORK_FRAGILITY" s else s

/-- Lines 145-155, DEVICE_SENSITIVITY. -/
def deviceStep (df : DataFrame) (s : Finset String) : Finset String :=
  if df.lowerNames.contains "device_type" && deviceSensitivityHit df then
    insert "DEVICE_SENSITIVITY" s else s

/-- Lines 159-172, MAINTENANCE_WINDOW_PATTERN. -/
def maintStep (df : DataFrame) (s : Finset String) : Finset String :=
  if df.lowerNames.contains "is_weekend" && maintenanceHit df then
    insert "MAINTENANCE_WINDOW_PATTERN" s else s

/-- Lines 176-180, EXTERNAL_DEPENDENCY from transaction types. -/
def extDepStep (df : DataFrame) (s : Finset String) : Finset String :=
  if df.lowerNames.contains "transaction_type" && externalTypesHit df then
    insert "EXTERNAL_DEPENDENCY" s else s

/-- Lines 183-186, bill/recharge/biller query vocabulary. -/
def billStep (query_lower : String) (s : Finset String) : Finset String :=
  if strIn "bill" query_lower || strIn "recharge" query_lower
      || strIn "biller" query_lower then
    insert "HEAVY_VALIDATION" (insert "EXTERNAL_DEPENDENCY" s) else s

/-- Lines 190-194, HEAVY_VALIDATION from transaction types. -/
def heavyStep (df : DataFrame) (s : Finset String) : Finset String :=
  if df.lowerNames.contains "transaction_type" && externalTypesHit df then
    insert "HEAVY_VALIDATION" s else s

/-- Lines 198-203, HIGH_RETRIES from a retry column. -/
def retryStep (df : DataFrame) (s : Finset String) : Finset String :=
  if retryColHit df then insert "HIGH_RETRIES" s else s

/-- Lines 206-207, compound HIGH_RETRIES inference from the signals
accumulated so far. -/
def retryComboStep (s : Finset String) : Finset String :=
  if "HIGH_FAILURE_RATE" ∈ s ∧ "EXTERNAL_DEPENDENCY" ∈ s then
    insert "HIGH_RETRIES" s else s

/-- Lines 211-220, HIGH_VALUE_RISK. -/
def hvRiskStep (df : DataFrame) (s : Finset String) : Finset String :=
  if df.lowerNames.contains "amount_inr" && df.lowerNames.contains "fraud_flag"
      && highValueRiskHit df then insert "HIGH_VALUE_RISK" s else s

/-- Lines 222-223, FRAUD_CONCENTRATION from query vocabulary. -/
def fraudStep (query_lower : String) (s : Finset String) : Finset String :=
  if strIn "fraud" query_lower || strIn "flag" query_lower
      || strIn "risk" query_lower then
    insert "FRAUD_CONCENTRATION" s else s

/-- Lines 227-238, BANK_CONCENTRATION. -/
def bankStep (df : DataFrame) (s : Finset String) : Finset String :=
  if (df.lowerNames.contains "sender_bank"
        || df.lowerNames.contains "receiver_bank")
      && bankConcentrationHit df then insert "BANK_CONCENTRATION" s else s

/-- Model of `InsightEngine.extract_signals` (src/analytics.py lines
50-241): after the empty-frame early return, the signal rules accumulate
into the set in source order. -/
def extract_signals (df : DataFrame) (query_context : String) : Finset String :=
  if df.isEmpty then ∅
  else
    bankStep df (fraudStep (pyLower query_context) (hvRiskStep df
      (retryComboStep (retryStep df (heavyStep df (billStep (pyLower query_context)
        (extDepStep df (maintStep df (deviceStep df (networkStep df
          (peakStep df (hfrStep3 df (hfrStep2 df (hfrStep1 df ∅))))))))))))))

/-- Line 89 accesses `df['transaction_status']` by exact name and applies
the `.str` accessor: the access completes without raising exactly when a
column of that exact name exists with object (string) dtype; otherwise
Python raises an uncaught KeyError (missing exact name) or AttributeError
(`.str` on a non-string column). -/
def statusAccessOk (df : DataFrame) : Bool :=
  match df.getCol "transaction_status" with
  | some c => c.dtype == Dtype.obj
  | none => false

/-- Model of the uncaught exceptions of `extract_signals`
(src/analytics.py): after the empty-frame early return, block B (lines
86-92, reached only when `failure_detected` is still false) raises on a
lowercase-guard-passing `transaction_status` whose exact-name access or
`.str` accessor fails, and the transaction-type blocks (lines 176-180 and
190-194) raise on a lowercase-guard-passing `transaction_type` with no
exact-name column.  Every other exact-name access of the function sits
inside a `try/except Exception` that swallows the error. -/
def extractRaises (df : DataFrame) : Bool :=
  !df.isEmpty &&
    ((!failRateColHit df && df.lowerNames.contains "transaction_status"
        && !statusAccessOk df)
     || (df.lowerNames.contains "transaction_type"
        && (df.getCol "transaction_type").isNone))

/-- Observable outcome of calling `extract_signals`: `none` when the call
raises (the orchestrator's catch then degrades the run to the empty signal
set), otherwise the returned signal set. -/
def extract_signals_run (df : DataFrame) (query_context : String) :
    Option (Finset String) :=
  if extractRaises df then none else some (extract_signals df query_context)

/-! ## Query router

Model of `QueryRouter` (src/payflow.ai.v2/backend/app/services/router.py).
The keyword tables are Python sets; every use below is order-independent
(an any-hit or a hit count), so lists are a faithful carrier. -/

def DATA_KEYWORDS : List String :=
  ["how many", "count", "total", "average", "mean", "median",
   "sum", "max", "min", "highest", "lowest", "top", "bottom",
   "rate", "percentage", "percent", "ratio", "trend", "growth",
   "compare", "comparison", "breakdown", "distribution",
   "transaction", "transactions", "payment", "payments",
   "fraud", "failure", "success", "failed", "upi",
   "merchant", "bank", "state", "device", "network",
   "p2p", "p2m", "bill", "recharge", "amount",
   "revenue", "volume", "frequency", "monthly", "weekly",
   "daily", "hourly", "weekend", "weekday",
   "sender", "receiver", "age group", "age_group",
   "android", "ios", "wifi", "3g", "4g", "5g",
   "show me", "list", "find", "fetch", "get",
   "which", "what is the", "what are the", "what's the",
   "calculate", "analyse", "analyze", "query",
   "chart", "graph", "plot", "visualize",
   "group by", "sort by", "order by", "filter"]

def GENERAL_KEYWORDS : List String :=
  ["hello", "hi", "hey", "thanks", "thank you", "bye",
   "good morning", "good evening", "good night",
   "who are you", "what are you", "your name",
   "help me", "what can you do", "how do you work",
   "explain", "tell me about yourself", "introduce"]

def FOLLOWUP_INDICATORS : List String :=
  ["both", "either", "which one", "out of", "between them",
   "the first", "the second", "the same", "those", "these",
   "that", "them", "it", "its", "their", "they",
   "more", "less", "better", "worse", "higher", "lower",
   "instead", "also", "as well", "too", "again",
   "now show", "now compare", "now filter", "what about",
   "and what", "and how", "but what", "but how",
   "same thing", "same query", "same data",
   "break it down", "drill down", "go deeper",
   "previous", "last question", "earlier"]

/-- Regex word character, `\w` = `[A-Za-z0-9_]` for the ASCII inputs used
here. -/
def isWordChar (c : Char) : Bool := c.isAlphanum || c = '_'

/-- Match `kw` at the head of `s` and check the trailing `\b`: after the
keyword the string must end or continue with a non-word character.  (Every
keyword in the three tables starts and ends with a word character, so `\b`
reduces to this adjacent-character test.) -/
def matchEndB : List Char → List Char → Bool
  | [], [] => true
  | [], c :: _ => !isWordChar c
  | _ :: _, [] => false
  | p :: ps, c :: cs => p = c && matchEndB ps cs

/-- Leading `\b`: the match position is the start of the string or follows
a non-word character. -/
def boundaryBefore : Option Char → Bool
  | none => true
  | some c => !isWordChar c

/-- Scan for a word-boundary-delimited occurrence, tracking the previous
character. -/
def wbAux (kw : List Char) : Option Char → List Char → Bool
  | prev, [] => boundaryBefore prev && matchEndB kw []
  | prev, c :: cs => (boundaryBefore prev && matchEndB kw (c :: cs)) || wbAux kw (some c) cs

/-- Python `re.search(r'\b' + re.escape(kw) + r'\b', s) is not None`. -/
def reWordSearch (kw s : String) : Bool := wbAux kw.data none s.data

/-- Model of `QueryRouter._is_followup`: plain substring containment of any
follow-up indicator (the source uses `in`, not a regex, here). -/
def is_followup (query_lower : String) : Bool :=
  FOLLOWUP_INDICATORS.any (fun ind => strIn ind query_lower)

/-- Model of `QueryRouter._keyword_classify` (router.py lines 122-141):
general keywords first, then a data-keyword hit count. -/
def keyword_classify (query_lower : String) : Option String :=
  if GENERAL_KEYWORDS.any (fun kw => reWordSearch kw query_lower) then
    some "general"
  else
    let data_score := (DATA_KEYWORDS.filter (fun kw => reWordSearch kw query_lower)).length
    if data_score ≥ 2 then some "data"
    else if data_score == 1 && strIn "?" query_lower then some "data"
    else none

/-- Model of `QueryRouter._llm_classify` given the text returned by the
external classifier.  (The service-failure branch of the source also
returns "data", the same as the default branch here.) -/
def llm_classify (resp : String) : String :=
  let classification := pyUpper (pyStrip resp)
  if strIn "DATA" classification then "data"
  else if strIn "GENERAL" classification then "general"
  else "data"

/-- Model of `QueryRouter.classify` (router.py lines 77-113); `llmResp` is
the oracle reply used only when the keyword rules are undecided. -/
def classify (llmResp : String) (user_query : String) (has_data_history : Bool) :
    String :=
  let query_lower := pyStrip (pyLower user_query)
  if has_data_history && is_followup query_lower then "data"
  else
    match keyword_classify query_lower with
    | some keyword_result =>
      if keyword_result == "general" && has_data_history
          && (pySplit query_lower).length ≤ 10 && strIn "?" query_lower then
        "data"
      else keyword_result
    | none => llm_classify llmResp

/-! ## SQL executor

Model of `SQLExecutor` (src/executor.py lines 20-121; the copy at
src/shinchan.ai.v2/backend/app/services/executor.py is identical in
behaviour).  Wall-clock latency is an oracle parameter `elapsed_ms`; the
database connection is an oracle from SQL text to a result table or an
error.  Python's `df.copy()` is the identity under value semantics. -/

deriving instance DecidableEq for Except

structure ExecState where
  last_execution_time_ms : ℚ
  last_rows_returned : ℕ
  query_cache : List (String × DataFrame)
deriving DecidableEq

/-- The `_cache_max_size` attribute. -/
def cache_max_size : ℕ := 50

/-- Executor state right after `__init__`. -/
def initExecState : ExecState := ⟨0, 0, []⟩

/-- Python `sql in self._query_cache` / `self._query_cache[sql]` (dicts keep
insertion order; lookup is by exact key). -/
def cacheLookup (cache : List (String × DataFrame)) (sql : String) :
    Option DataFrame :=
  (cache.find? (fun p => p.1 == sql)).map (fun p => p.2)

/-- The cache-miss path of `execute`: run the query, record the elapsed
time; on success also record the row count and, if the cache has room,
store a copy under the exact SQL text. -/
def executeMiss (db : String → Except String DataFrame) (elapsed_ms : ℚ)
    (st : ExecState) (sql : String) (use_cache : Bool) :
    Except String DataFrame × ExecState :=
  match db sql with
  | .error e =>
    (.error ("Query execution failed: " ++ e),
     { st with last_execution_time_ms := elapsed_ms })
  | .ok df =>
    if use_cache && st.query_cache.length < cache_max_size then
      (.ok df, { st with
                 last_execution_time_ms := elapsed_ms
                 last_rows_returned := df.nrows
                 query_cache := st.query_cache ++ [(sql, df)] })
    else
      (.ok df, { st with
                 last_execution_time_ms := elapsed_ms
                 last_rows_returned := df.nrows })

/-- Model of `SQLExecutor.execute` (src/executor.py lines 38-89): cache
lookup first (zero recorded latency, cached row count, a copy returned);
otherwise the miss path. -/
def execute (db : String → Except String DataFrame) (elapsed_ms : ℚ)
    (st : ExecState) (sql : String) (use_cache : Bool) :
    Except String DataFrame × ExecState :=
  if use_cache then
    match cacheLookup st.query_cache sql with
    | some cached =>
      (.ok cached,
       { st with last_rows_returned := cached.nrows, last_execution_time_ms := 0 })
    | none => executeMiss db elapsed_ms st sql use_cache
  else executeMiss db elapsed_ms st sql use_cache

structure ExecStats where
  time_ms : ℚ
  rows_returned : ℕ
  cache_size : ℕ
deriving DecidableEq

/-- Model of `SQLExecutor.get_execution_stats` (src/executor.py lines
91-102). -/
def get_execution_stats (st : ExecState) : ExecStats :=
  ⟨round2 st.last_execution_time_ms, st.last_rows_returned, st.query_cache.length⟩

/-! ## Orchestrator

Model of `InsightXEngine` (src/payflow.ai.v2/backend/app/services/engine.py).
The external collaborators are oracle parameters: the router verdict as a
function of the data-history flag, the translator outcome, the executor
boundary (SQL text to table or execution error), and the two narrative
LLM calls.  Narrative strings are elided from the result record (no claim
reads them); the spec's terminal states are made explicit as a tag derived
from the branch taken. -/

inductive Terminal
  | generalAnswered
  | translationFailed
  | validationBlocked
  | executionFailed
  | success
deriving DecidableEq

structure QueryResult where
  terminal : Terminal
  query : String
  sql : Option String
  rows_returned : ℕ
  error : Option String
  signals : Finset String
deriving DecidableEq

structure EngineState where
  conversations : List (String × List (String × String))
  general_conversations : List (String × List (String × String))
deriving DecidableEq

/-- The `_max_history` attribute. -/
def max_history : ℕ := 100

/-- Engine conversation maps right after `__init__`. -/
def initEngineState : EngineState := ⟨[], []⟩

/-- Python `dict.get` on an insertion-ordered association list. -/
def alGet {α : Type} (m : List (String × α)) (k : String) : Option α :=
  (m.find? (fun p => p.1 == k)).map (fun p => p.2)

/-- Python `dict[k] = v`: overwrite in place or append a new key. -/
def alSet {α : Type} (m : List (String × α)) (k : String) (v : α) :
    List (String × α) :=
  if m.any (fun p => p.1 == k) then
    m.map (fun p => if p.1 == k then (k, v) else p)
  else m ++ [(k, v)]

/-- Model of `InsightXEngine._save_to_history` (engine.py lines 56-68), also
reused for the general track whose append/trim logic is the same: append the
pair for a truthy conversation id, then evict the oldest entry past the cap.
A `none` or empty-string id (both falsy in Python) leaves the map unchanged. -/
def save_to_history (conv : List (String × List (String × String)))
    (cid : Option String) (user_query sql : String) :
    List (String × List (String × String)) :=
  match cid with
  | none => conv
  | some c =>
    if c == "" then conv
    else
      let hist := (alGet conv c).getD [] ++ [(user_query, sql)]
      let hist := if hist.length > max_history then hist.drop 1 else hist
      alSet conv c hist

/-- The `has_data_history` flag of `process_query` (engine.py lines
153-156): a truthy conversation id whose data-track history is non-empty. -/
def hasDataHistory (st : EngineState) (cid : Option String) : Bool :=
  match cid with
  | none => false
  | some c => !(c == "") && !((alGet st.conversations c).getD []).isEmpty

/-- Model of `InsightXEngine._handle_general_query` (engine.py lines
70-145): on an oracle reply, record the turn into the general track; on a
service failure, a canned reply and no recording.  Either way the data
track is untouched. -/
def handle_general_query (generalOracle : Except String String)
    (st : EngineState) (user_query : String) (cid : Option String) :
    QueryResult × EngineState :=
  let res : QueryResult :=
    { terminal := .generalAnswered, query := user_query, sql := none,
      rows_returned := 0, error := none, signals := ∅ }
  match generalOracle with
  | .ok reply =>
    (res, { st with
      general_conversations := save_to_history st.general_conversations cid user_query reply })
  | .error _ => (res, st)

/-- Model of `InsightXEngine.process_query` (engine.py lines 147-237).
Route; general queries short-circuit.  Otherwise translate (failure is the
`TRANSLATION_FAILED` terminal), validate with `validate_query` (failure is
`VALIDATION_BLOCKED`), execute through the executor boundary (failure is
`EXECUTION_FAILED`), then extract signals, score hypotheses and compose the
narrative (all best-effort), and only then append `(query, sql)` to the
data-track history — the `SUCCESS` terminal. -/
def process_query (routeFn : Bool → String) (transl : Except String String)
    (execFn : String → Except String DataFrame)
    (generalOracle : Except String String) (hyps : List Hypothesis)
    (st : EngineState) (user_query : String) (cid : Option String) :
    QueryResult × EngineState :=
  let query_type := routeFn (hasDataHistory st cid)
  if query_type == "general" then
    handle_general_query generalOracle st user_query cid
  else
    match transl with
    | .error e =>
      ({ terminal := .translationFailed, query := user_query, sql := none,
         rows_returned := 0, error := some e, signals := ∅ }, st)
    | .ok sql =>
      if !validate_query sql then
        ({ terminal := .validationBlocked, query := user_query, sql := some sql,
           rows_returned := 0, error := some "SQL failed safety validation.",
           signals := ∅ }, st)
      else
        match execFn sql with
        | .error e =>
          ({ terminal := .executionFailed, query := user_query, sql := some sql,
             rows_returned := 0, error := some e, signals := ∅ }, st)
        | .ok df =>
          let signals := extract_signals df user_query
          let _scored := score_hypotheses hyps signals
          ({ terminal := .success, query := user_query, sql := some sql,
             rows_returned := df.nrows, error := none, signals := signals },
           { st with
             conversations := save_to_history st.conversations cid user_query sql })

/-! ## Concrete instances used by witnesses and counterexamples -/

/-- The spec scenario hypothesis: `required_signals = {A, B}`,
`supporting_signals = {C}`. -/
def hypAB : Hypothesis := ⟨"H1", {"A", "B"}, {"C"}⟩

/-- A non-empty one-column frame that matches no signal rule. -/
def dfPlain : DataFrame := ⟨[⟨"a", Dtype.obj, ColVals.strs [some "b"]⟩]⟩

/-- The empty frame. -/
def dfEmpty : DataFrame := ⟨[]⟩

/-- A non-empty frame whose only column is named `Transaction_Type`: the
lowercased-name guard passes but the exact-name access raises, so signal
extraction raises before the fraud-vocabulary rule. -/
def dfMismatch : DataFrame :=
  ⟨[⟨"Transaction_Type", Dtype.obj, ColVals.strs [some "Recharge"]⟩]⟩

/-- A database oracle on which every query succeeds with an empty table. -/
def dbOne : String → Except String DataFrame := fun _ => .ok ⟨[]⟩

/-- A database oracle on which every query fails. -/
def dbFail : String → Except String DataFrame := fun _ => .error "boom"

/-- A router oracle that always reports a data query. -/
def routeData : Bool → String := fun _ => "data"

/-- Executor state reached from `initExecState` by 50 successful executions
of 50 distinct SQL texts: its cache is saturated at `cache_max_size`. -/
def fullSt : ExecState :=
  (List.range 50).foldl
    (fun st i => (execute dbOne 1 st (Nat.repr i) true).2) initExecState

/-! ## Helper lemmas -/

theorem floor_le_rhe (q : ℚ) : ⌊q⌋ ≤ rhe q := by
  unfold rhe; split_ifs <;> omega

theorem rhe_le_floor_add_one (q : ℚ) : rhe q ≤ ⌊q⌋ + 1 := by
  unfold rhe; split_ifs <;> omega

theorem rhe_mono {x y : ℚ} (h : x ≤ y) : rhe x ≤ rhe y := by
  have hf : ⌊x⌋ ≤ ⌊y⌋ := Int.floor_mono h
  rcases eq_or_lt_of_le hf with heq | hlt
  · have hfr : x - (⌊x⌋ : ℚ) ≤ y - (⌊y⌋ : ℚ) := by
      have : ((⌊x⌋ : ℚ)) = ((⌊y⌋ : ℚ)) := by exact_mod_cast heq
      linarith
    unfold rhe
    rw [← heq]
    split_ifs <;> first | omega | linarith
  · have h1 := rhe_le_floor_add_one x
    have h2 := floor_le_rhe y
    omega

theorem round3_mono {x y : ℚ} (h : x ≤ y) : round3 x ≤ round3 y := by
  unfold round3
  have hm : rhe (x * 1000) ≤ rhe (y * 1000) :=
    rhe_mono (mul_le_mul_of_nonneg_right h (by norm_num))
  have hc : ((rhe (x * 1000) : ℚ)) ≤ ((rhe (y * 1000) : ℚ)) := by exact_mod_cast hm
  exact (div_le_div_iff_of_pos_right (by norm_num)).mpr hc

theorem div_card_mono {a b c : ℚ} (hab : a ≤ b) (hc : 0 ≤ c) :
    a / c ≤ b / c := by
  rcases eq_or_lt_of_le hc with h0 | hpos
  · simp [← h0]
  · exact (div_le_div_iff_of_pos_right hpos).mpr hab

theorem rawScore_mono (h : Hypothesis) {S T : Finset String} (hST : S ⊆ T) :
    rawScore h S ≤ rawScore h T := by
  unfold rawScore
  have hr : ((h.required_signals ∩ S).card : ℚ) / (h.required_signals.card : ℚ)
      ≤ ((h.required_signals ∩ T).card : ℚ) / (h.required_signals.card : ℚ) := by
    refine div_card_mono ?_ (by positivity)
    exact_mod_cast Finset.card_le_card (Finset.inter_subset_inter (le_refl _) hST)
  have hs : (if h.supporting_signals = ∅ then (0 : ℚ)
        else ((h.supporting_signals ∩ S).card : ℚ) / (h.supporting_signals.card : ℚ))
      ≤ (if h.supporting_signals = ∅ then (0 : ℚ)
        else ((h.supporting_signals ∩ T).card : ℚ) / (h.supporting_signals.card : ℚ)) := by
    split_ifs
    · exact le_refl _
    · refine div_card_mono ?_ (by positivity)
      exact_mod_cast Finset.card_le_card (Finset.inter_subset_inter (le_refl _) hST)
  have h7 : (0.7 : ℚ) * (((h.required_signals ∩ S).card : ℚ) / (h.required_signals.card : ℚ))
      ≤ (0.7 : ℚ) * (((h.required_signals ∩ T).card : ℚ) / (h.required_signals.card : ℚ)) :=
    mul_le_mul_of_nonneg_left hr (by norm_num)
  have h3 : (0.3 : ℚ) * (if h.supporting_signals = ∅ then (0 : ℚ)
        else ((h.supporting_signals ∩ S).card : ℚ) / (h.supporting_signals.card : ℚ))
      ≤ (0.3 : ℚ) * (if h.supporting_signals = ∅ then (0 : ℚ)
        else ((h.supporting_signals ∩ T).card : ℚ) / (h.supporting_signals.card : ℚ)) :=
    mul_le_mul_of_nonneg_left hs (by norm_num)
  exact add_le_add h7 h3

theorem confidence_mono (h : Hypothesis) {S T : Finset String} (hST : S ⊆ T) :
    confidence h S ≤ confidence h T :=
  round3_mono (rawScore_mono h hST)

theorem mem_insertScoreDesc (p q : Hypothesis × ℚ) (l : List (Hypothesis × ℚ)) :
    q ∈ insertScoreDesc p l ↔ q = p ∨ q ∈ l := by
  induction l with
  | nil => simp [insertScoreDesc]
  | cons x xs ih =>
    by_cases hx : x.2 ≤ p.2
    · simp only [insertScoreDesc, if_pos hx, List.mem_cons]
    · simp only [insertScoreDesc, if_neg hx, List.mem_cons, ih]
      tauto

theorem mem_sortScoreDesc (q : Hypothesis × ℚ) (l : List (Hypothesis × ℚ)) :
    q ∈ sortScoreDesc l ↔ q ∈ l := by
  induction l with
  | nil => simp [sortScoreDesc]
  | cons x xs ih =>
    simp only [sortScoreDesc, List.foldr_cons] at *
    rw [mem_insertScoreDesc, ih, List.mem_cons]

theorem length_insertScoreDesc (p : Hypothesis × ℚ) (l : List (Hypothesis × ℚ)) :
    (insertScoreDesc p l).length = l.length + 1 := by
  induction l with
  | nil => simp [insertScoreDesc]
  | cons x xs ih =>
    by_cases hx : x.2 ≤ p.2 <;> simp [insertScoreDesc, hx, ih]

theorem length_sortScoreDesc (l : List (Hypothesis × ℚ)) :
    (sortScoreDesc l).length = l.length := by
  induction l with
  | nil => rfl
  | cons x xs ih =>
    simp only [sortScoreDesc, List.foldr_cons] at *
    rw [length_insertScoreDesc, ih]
    simp

theorem mem_score_hypotheses (hyps : List Hypothesis) (S : Finset String)
    (h : Hypothesis) (c : ℚ) :
    (h, c) ∈ score_hypotheses hyps S
      ↔ h ∈ hyps ∧ h.required_signals ≠ ∅ ∧ c = confidence h S := by
  unfold score_hypotheses
  rw [mem_sortScoreDesc, List.mem_filterMap]
  constructor
  · rintro ⟨a, ha, hfa⟩
    by_cases he : a.required_signals = ∅
    · rw [if_pos he] at hfa
      exact absurd hfa (by simp)
    · rw [if_neg he] at hfa
      have hp := Option.some.inj hfa
      rw [Prod.mk.injEq] at hp
      obtain ⟨h1, h2⟩ := hp
      subst h1
      exact ⟨ha, he, h2.symm⟩
  · rintro ⟨hmem, hne, rfl⟩
    exact ⟨h, hmem, by simp [hne]⟩

theorem length_score_hypotheses (hyps : List Hypothesis) (S : Finset String) :
    (score_hypotheses hyps S).length
      = (hyps.filter (fun h => h.required_signals ≠ ∅)).length := by
  unfold score_hypotheses
  rw [length_sortScoreDesc]
  induction hyps with
  | nil => rfl
  | cons x xs ih =>
    simp only [List.filterMap_cons, List.filter_cons]
    by_cases hx : x.required_signals = ∅
    · simp [hx, ih]
    · simp [hx, ih]

/-- Shared helper: appending a fresh key to a cache makes it findable. -/
theorem cacheLookup_append (c : List (String × DataFrame)) (k : String)
    (v : DataFrame) (h : cacheLookup c k = none) :
    cacheLookup (c ++ [(k, v)]) k = some v := by
  unfold cacheLookup at *
  rw [List.find?_append]
  have hf : c.find? (fun p => p.1 == k) = none := by
    cases hcc : c.find? (fun p => p.1 == k) with
    | none => rfl
    | some p =>
      rw [hcc] at h
      simp at h
  rw [hf]
  simp [List.find?]

/-- Shared helper: a failing `executeMiss` records the elapsed time and
changes nothing else. -/
theorem executeMiss_error (db : String → Except String DataFrame)
    (elapsed_ms : ℚ) (st : ExecState) (sql : String) (use_cache : Bool)
    (e : String) (h : (executeMiss db elapsed_ms st sql use_cache).1 = .error e) :
    (executeMiss db elapsed_ms st sql use_cache).2
      = { st with last_execution_time_ms := elapsed_ms } := by
  unfold executeMiss at h ⊢
  cases hdb : db sql with
  | error msg => rfl
  | ok df =>
    rw [hdb] at h
    exfalso
    cases hcl : (use_cache && decide (st.query_cache.length < cache_max_size)) <;>
      simp [hcl] at h

/-! ## Claims -/

/-- C1: for every hypothesis library, signal set S and hypothesis h of the
library, `score_hypotheses` includes h in its output iff h's required-signal
set is non-empty; every confidence it pairs with h equals
`round3 (0.7 * |required ∩ S| / |required| + 0.3 * (|supporting ∩ S| / |supporting|, or 0))`;
and the spec scenario required = {A, B}, supporting = {C}, S = {A} scores
0.35. -/
theorem C1_confidence_formula (hyps : List Hypothesis) (S : Finset String)
    (h : Hypothesis) (hmem : h ∈ hyps) :
    ((∃ c, (h, c) ∈ score_hypotheses hyps S) ↔ h.required_signals ≠ ∅) ∧
    (∀ c, (h, c) ∈ score_hypotheses hyps S →
      c = round3 (0.7 * (((h.required_signals ∩ S).card : ℚ) / (h.required_signals.card : ℚ))
            + 0.3 * (if h.supporting_signals = ∅ then (0 : ℚ)
                else ((h.supporting_signals ∩ S).card : ℚ) / (h.supporting_signals.card : ℚ)))) ∧
    confidence hypAB {"A"} = 0.35 := by
  refine ⟨⟨?_, ?_⟩, ?_, ?_⟩
  · rintro ⟨c, hc⟩
    exact ((mem_score_hypotheses hyps S h c).1 hc).2.1
  · intro hne
    exact ⟨confidence h S, (mem_score_hypotheses hyps S h _).2 ⟨hmem, hne, rfl⟩⟩
  · intro c hc
    rw [((mem_score_hypotheses hyps S h c).1 hc).2.2]
    rfl
  · have hraw : rawScore hypAB {"A"} = 0.35 := by
      unfold rawScore hypAB
      rw [show (({"A", "B"} : Finset String) ∩ {"A"}).card = 1 from by decide]
      rw [show (({"C"} : Finset String) ∩ {"A"}).card = 0 from by decide]
      rw [show ({"A", "B"} : Finset String).card = 2 from by decide]
      rw [if_neg (show ¬ ({"C"} : Finset String) = ∅ from by decide)]
      norm_num
    unfold confidence
    rw [hraw]
    unfold round3 rhe
    rw [show (0.35 : ℚ) * 1000 = 350 from by norm_num]
    rw [show ⌊(350 : ℚ)⌋ = 350 from by norm_num]
    norm_num

/-- Witness for C1 at a concrete library and signal set. -/
theorem C1_confidence_formula_witness :
    (∃ c, (hypAB, c) ∈ score_hypotheses [hypAB] {"A"})
      ∧ confidence hypAB {"A"} = 0.35 :=
  ⟨(C1_confidence_formula [hypAB] {"A"} hypAB (List.mem_singleton.2 rfl)).1.2
      (by decide),
   (C1_confidence_formula [hypAB] {"A"} hypAB (List.mem_singleton.2 rfl)).2.2⟩

/-- C7: the confidence `score_hypotheses` assigns to a hypothesis under
`insert x S` is at least the one it assigns under S — scoring is monotone
in the observed signal set. -/
theorem C7_score_monotone (hyps : List Hypothesis) (S : Finset String)
    (x : String) (h : Hypothesis) (c1 c2 : ℚ) (_hx : x ∉ S)
    (h1 : (h, c1) ∈ score_hypotheses hyps S)
    (h2 : (h, c2) ∈ score_hypotheses hyps (insert x S)) : c1 ≤ c2 := by
  rw [((mem_score_hypotheses hyps S h c1).1 h1).2.2]
  rw [((mem_score_hypotheses hyps (insert x S) h c2).1 h2).2.2]
  exact confidence_mono h (Finset.subset_insert x S)

/-- Witness for C7 at a concrete library: adding signal A to the empty set. -/
theorem C7_score_monotone_witness :
    ("A" ∉ (∅ : Finset String))
      ∧ (hypAB, confidence hypAB ∅) ∈ score_hypotheses [hypAB] ∅
      ∧ (hypAB, confidence hypAB (insert "A" ∅)) ∈ score_hypotheses [hypAB] (insert "A" ∅)
      ∧ confidence hypAB ∅ ≤ confidence hypAB (insert "A" ∅) := by
  have hx : "A" ∉ (∅ : Finset String) := Finset.not_mem_empty _
  have m1 : (hypAB, confidence hypAB ∅) ∈ score_hypotheses [hypAB] ∅ :=
    (mem_score_hypotheses _ _ _ _).2 ⟨List.mem_singleton.2 rfl, by decide, rfl⟩
  have m2 : (hypAB, confidence hypAB (insert "A" ∅))
      ∈ score_hypotheses [hypAB] (insert "A" ∅) :=
    (mem_score_hypotheses _ _ _ _).2 ⟨List.mem_singleton.2 rfl, by decide, rfl⟩
  exact ⟨hx, m1, m2, C7_score_monotone [hypAB] ∅ "A" hypAB _ _ hx m1 m2⟩

/-- C9: `score_hypotheses` returns one entry per hypothesis with a
non-empty required set — its length is that count, independent of the
signal set — and a hypothesis matching no observed signal is still
returned, with confidence 0. -/
theorem C9_output_length (hyps : List Hypothesis) (S : Finset String) :
    (score_hypotheses hyps S).length
        = (hyps.filter (fun h => h.required_signals ≠ ∅)).length ∧
    (∀ h ∈ hyps, h.required_signals ≠ ∅ →
      h.required_signals ∩ S = ∅ → h.supporting_signals ∩ S = ∅ →
      (h, 0) ∈ score_hypotheses hyps S) := by
  refine ⟨length_score_hypotheses hyps S, ?_⟩
  intro h hmem hne hri hsi
  have hc : confidence h S = 0 := by
    unfold confidence rawScore
    rw [hri, hsi]
    simp only [Finset.card_empty, Nat.cast_zero, zero_div, mul_zero, ite_self,
      add_zero]
    unfold round3 rhe
    rw [show ((0 : ℚ) * 1000) = 0 from by norm_num]
    rw [Int.floor_zero]
    norm_num
  exact (mem_score_hypotheses hyps S h 0).2 ⟨hmem, hne, hc.symm⟩

/-- Witness for C9 at a concrete library and the empty signal set. -/
theorem C9_output_length_witness :
    (score_hypotheses [hypAB] ∅).length
        = ([hypAB].filter (fun h => h.required_signals ≠ ∅)).length
      ∧ (hypAB, 0) ∈ score_hypotheses [hypAB] ∅ :=
  ⟨(C9_output_length [hypAB] ∅).1,
   (C9_output_length [hypAB] ∅).2 hypAB (List.mem_singleton.2 rfl)
     (by decide) (by decide) (by decide)⟩

/-- C2: `validate_query` returns false whenever a destructive keyword
appears as a standalone token of the uppercased statement or the statement
does not begin with SELECT or WITH; and on the translator output
DROP TABLE transactions the orchestrator reaches the validation-blocked
terminal with a result independent of the executor oracle (the executor is
never consulted). -/
theorem C2_validator_blocks :
    (∀ sql : String,
      (DANGEROUS_KEYWORDS.any
          (fun kw => (pySplit (pyStrip (pyUpper sql))).contains kw) = true
        ∨ (pyStartsWith (pyStrip (pyUpper sql)) "SELECT" = false
            ∧ pyStartsWith (pyStrip (pyUpper sql)) "WITH" = false)) →
      validate_query sql = false) ∧
    (∀ (routeFn : Bool → String) (execFn execFn2 : String → Except String DataFrame)
        (generalOracle : Except String String) (hyps : List Hypothesis)
        (st : EngineState) (q : String) (cid : Option String),
      (∀ b, routeFn b ≠ "general") →
      (process_query routeFn (.ok "DROP TABLE transactions") execFn generalOracle
          hyps st q cid).1.terminal = Terminal.validationBlocked
        ∧ process_query routeFn (.ok "DROP TABLE transactions") execFn generalOracle
            hyps st q cid
          = process_query routeFn (.ok "DROP TABLE transactions") execFn2 generalOracle
              hyps st q cid) := by
  constructor
  · intro sql hcond
    simp only [validate_query]
    rcases hcond with hkw | ⟨hs, hw⟩
    · rw [if_pos hkw]
    · by_cases hkw : DANGEROUS_KEYWORDS.any
          (fun kw => (pySplit (pyStrip (pyUpper sql))).contains kw) = true
      · rw [if_pos hkw]
      · rw [if_neg hkw, if_pos ⟨by simp [hs], by simp [hw]⟩]
  · intro routeFn execFn execFn2 generalOracle hyps st q cid hroute
    have hq : (routeFn (hasDataHistory st cid) == "general") = false := by
      cases hb : routeFn (hasDataHistory st cid) == "general"
      · rfl
      · exact absurd (eq_of_beq hb) (hroute _)
    have hv : validate_query "DROP TABLE transactions" = false := by decide
    have key : ∀ ef : String → Except String DataFrame,
        process_query routeFn (.ok "DROP TABLE transactions") ef generalOracle
            hyps st q cid
          = ({ terminal := .validationBlocked, query := q,
               sql := some "DROP TABLE transactions", rows_returned := 0,
               error := some "SQL failed safety validation.",
               signals := ∅ }, st) := by
      intro ef
      unfold process_query
      simp [hq, hv]
    exact ⟨by rw [key execFn], by rw [key execFn, key execFn2]⟩

/-- Witness for C2: the scenario input, with the data route and concrete
oracles. -/
theorem C2_validator_blocks_witness :
    validate_query "DROP TABLE transactions" = false
      ∧ (process_query routeData (.ok "DROP TABLE transactions") dbOne
          (.error "down") [] initEngineState "drop the table" none).1.terminal
          = Terminal.validationBlocked :=
  ⟨C2_validator_blocks.1 "DROP TABLE transactions" (Or.inl (by decide)),
   (C2_validator_blocks.2 routeData dbOne dbOne (.error "down") [] initEngineState
      "drop the table" none (fun _ => show "data" ≠ "general" by decide)).1⟩

/-- C3 counterexample: a non-empty one-column table with no signal-relevant
content yields the empty signal set, so a table whose detected signal set
is empty need not be empty — the reverse direction of the claimed
equivalence fails. -/
theorem C3_counterexample :
    dfPlain.isEmpty = false ∧ extract_signals dfPlain "hello" = ∅ := by
  constructor
  · decide
  · decide

/-- C3 amended: every empty table yields the empty signal set (the forward
direction of the claimed equivalence; the reverse direction is refuted by
the counterexample). -/
theorem C3_empty_table_no_signals (df : DataFrame) (q : String)
    (hd : df.isEmpty = true) : extract_signals df q = ∅ := by
  unfold extract_signals
  rw [if_pos hd]

/-- Witness for C3 at the empty frame. -/
theorem C3_empty_table_no_signals_witness :
    dfEmpty.isEmpty = true ∧ extract_signals dfEmpty "x" = ∅ :=
  ⟨by decide, C3_empty_table_no_signals dfEmpty "x" (by decide)⟩

/-- C8 counterexample: the claim fails in two ways.  On an empty table the
early return yields the empty signal set despite the fraud vocabulary in
the query; and on a non-empty table whose only column is named
Transaction_Type, the lowercased-name guard passes but the exact-name
access raises before the fraud-vocabulary rule, so the call never returns
a set containing FRAUD_CONCENTRATION at all. -/
theorem C8_counterexample :
    (strIn "fraud" (pyLower "show fraud risk") = true
      ∧ "FRAUD_CONCENTRATION" ∉ extract_signals dfEmpty "show fraud risk")
    ∧ (dfMismatch.isEmpty = false
      ∧ extractRaises dfMismatch = true
      ∧ extract_signals_run dfMismatch "show fraud risk" = none) := by
  refine ⟨⟨by decide, ?_⟩, by decide, by decide, by decide⟩
  have h : extract_signals dfEmpty "show fraud risk" = ∅ := by decide
  rw [h]
  exact Finset.not_mem_empty _

/-- C8 amended: for every non-empty table on which signal extraction
completes without raising, a query whose lowercased text contains fraud,
flag or risk makes the call return a signal set containing
FRAUD_CONCENTRATION, independent of the table contents. -/
theorem C8_fraud_vocabulary (df : DataFrame) (q : String)
    (hd : df.isEmpty = false)
    (hr : extractRaises df = false)
    (hf : (strIn "fraud" (pyLower q) || strIn "flag" (pyLower q)
            || strIn "risk" (pyLower q)) = true) :
    extract_signals_run df q = some (extract_signals df q)
      ∧ "FRAUD_CONCENTRATION" ∈ extract_signals df q := by
  constructor
  · unfold extract_signals_run
    rw [if_neg (by simp [hr])]
  · unfold extract_signals
    rw [if_neg (by simp [hd])]
    have hmem : "FRAUD_CONCENTRATION" ∈ fraudStep (pyLower q) (hvRiskStep df
        (retryComboStep (retryStep df (heavyStep df (billStep (pyLower q)
          (extDepStep df (maintStep df (deviceStep df (networkStep df
            (peakStep df (hfrStep3 df (hfrStep2 df (hfrStep1 df ∅))))))))))))) := by
      unfold fraudStep
      rw [if_pos hf]
      exact Finset.mem_insert_self _ _
    unfold bankStep
    split
    · exact Finset.mem_insert_of_mem hmem
    · exact hmem

/-- Witness for C8 at a concrete non-empty, non-raising frame and a
fraud-word query. -/
theorem C8_fraud_vocabulary_witness :
    dfPlain.isEmpty = false
      ∧ extractRaises dfPlain = false
      ∧ (strIn "fraud" (pyLower "fraud?") || strIn "flag" (pyLower "fraud?")
          || strIn "risk" (pyLower "fraud?")) = true
      ∧ extract_signals_run dfPlain "fraud?" = some (extract_signals dfPlain "fraud?")
      ∧ "FRAUD_CONCENTRATION" ∈ extract_signals dfPlain "fraud?" :=
  ⟨by decide, by decide, by decide,
   (C8_fraud_vocabulary dfPlain "fraud?" (by decide) (by decide) (by decide)).1,
   (C8_fraud_vocabulary dfPlain "fraud?" (by decide) (by decide) (by decide)).2⟩

set_option maxRecDepth 10000

/-- C4 counterexample: from a freshly initialised executor, 50 successful
executions of 50 distinct SQL texts saturate the cache; a 51st text then
runs twice with caching enabled, both calls succeed with identical tables,
yet the recorded latency after the second call is the measured elapsed
time, not zero — the second call was not served from the cache. -/
theorem C4_counterexample :
    (execute dbOne 5 fullSt "SELECT 1" true).1 = .ok ⟨[]⟩
      ∧ (execute dbOne 5 (execute dbOne 5 fullSt "SELECT 1" true).2
          "SELECT 1" true).1 = .ok ⟨[]⟩
      ∧ (execute dbOne 5 (execute dbOne 5 fullSt "SELECT 1" true).2
          "SELECT 1" true).2.last_execution_time_ms ≠ 0 := by
  refine ⟨?_, ?_, ?_⟩
  · decide
  · decide
  · decide

/-- C4 amended: provided the first call succeeds and, before it, the SQL
text is already cached or the cache is below its 50-entry capacity,
executing the same text twice with caching enabled returns the identical
table on both calls and the second call records zero latency. -/
theorem C4_cache_round_trip (db : String → Except String DataFrame)
    (e1 e2 : ℚ) (st : ExecState) (sql : String)
    (h : (∃ dfc, cacheLookup st.query_cache sql = some dfc)
        ∨ ((∃ df0, db sql = .ok df0) ∧ st.query_cache.length < cache_max_size)) :
    ∃ df, (execute db e1 st sql true).1 = .ok df
      ∧ (execute db e2 (execute db e1 st sql true).2 sql true).1 = .ok df
      ∧ (execute db e2 (execute db e1 st sql true).2 sql true).2.last_execution_time_ms
          = 0 := by
  cases hc : cacheLookup st.query_cache sql with
  | some cached =>
    refine ⟨cached, ?_, ?_, ?_⟩ <;> simp [execute, hc]
  | none =>
    rcases h with ⟨dfc, hdfc⟩ | ⟨⟨df0, hdb⟩, hlen⟩
    · rw [hc] at hdfc
      cases hdfc
    · have h1 : execute db e1 st sql true
          = (.ok df0, { st with
              last_execution_time_ms := e1
              last_rows_returned := df0.nrows
              query_cache := st.query_cache ++ [(sql, df0)] }) := by
        simp [execute, executeMiss, hc, hdb, hlen]
      have h2 : cacheLookup (st.query_cache ++ [(sql, df0)]) sql = some df0 :=
        cacheLookup_append st.query_cache sql df0 hc
      refine ⟨df0, ?_, ?_, ?_⟩ <;> rw [h1] <;> simp [execute, h2]

/-- Witness for C4 from the freshly initialised executor. -/
theorem C4_cache_round_trip_witness :
    ((∃ dfc, cacheLookup initExecState.query_cache "SELECT 1" = some dfc)
        ∨ ((∃ df0, dbOne "SELECT 1" = .ok df0)
            ∧ initExecState.query_cache.length < cache_max_size))
      ∧ ∃ df, (execute dbOne 3 initExecState "SELECT 1" true).1 = .ok df
          ∧ (execute dbOne 4 (execute dbOne 3 initExecState "SELECT 1" true).2
              "SELECT 1" true).1 = .ok df
          ∧ (execute dbOne 4 (execute dbOne 3 initExecState "SELECT 1" true).2
              "SELECT 1" true).2.last_execution_time_ms = 0 :=
  ⟨Or.inr ⟨⟨⟨[]⟩, rfl⟩, by decide⟩,
   C4_cache_round_trip dbOne 3 4 initExecState "SELECT 1"
     (Or.inr ⟨⟨⟨[]⟩, rfl⟩, by decide⟩)⟩

/-- C10: when `execute` raises an execution failure, the recorded latency
becomes the failed attempt's elapsed time while the recorded row count and
the cache are untouched, so `get_execution_stats` afterwards pairs the
failed attempt's latency with the previous execution's row count. -/
theorem C10_failure_frame (db : String → Except String DataFrame)
    (elapsed_ms : ℚ) (st : ExecState) (sql : String) (use_cache : Bool)
    (e : String) (h : (execute db elapsed_ms st sql use_cache).1 = .error e) :
    (execute db elapsed_ms st sql use_cache).2
        = { st with last_execution_time_ms := elapsed_ms }
      ∧ get_execution_stats (execute db elapsed_ms st sql use_cache).2
        = ⟨round2 elapsed_ms, st.last_rows_returned, st.query_cache.length⟩ := by
  have hs : (execute db elapsed_ms st sql use_cache).2
      = { st with last_execution_time_ms := elapsed_ms } := by
    unfold execute at h ⊢
    by_cases huc : use_cache = true
    · rw [if_pos huc] at h ⊢
      cases hc : cacheLookup st.query_cache sql with
      | some cached =>
        rw [hc] at h
        exact absurd h (by simp)
      | none =>
        rw [hc] at h
        exact executeMiss_error db elapsed_ms st sql use_cache e h
    · rw [if_neg huc] at h ⊢
      exact executeMiss_error db elapsed_ms st sql use_cache e h
  exact ⟨hs, by rw [hs]; rfl⟩

/-- Witness for C10 on an always-failing database oracle. -/
theorem C10_failure_frame_witness :
    (execute dbFail 7 initExecState "q" true).1
        = .error "Query execution failed: boom"
      ∧ (execute dbFail 7 initExecState "q" true).2
          = { initExecState with last_execution_time_ms := 7 }
      ∧ get_execution_stats (execute dbFail 7 initExecState "q" true).2
          = ⟨round2 7, initExecState.last_rows_returned,
             initExecState.query_cache.length⟩ :=
  ⟨by decide,
   (C10_failure_frame dbFail 7 initExecState "q" true
      "Query execution failed: boom" (by decide)).1,
   (C10_failure_frame dbFail 7 initExecState "q" true
      "Query execution failed: boom" (by decide)).2⟩

/-- C5: when the keyword step reaches a GENERAL verdict, at least one DATA
phrase also matches, prior data context exists, and the (lowercased,
stripped) message has at most 10 words and contains a question mark,
`classify` returns the data verdict. -/
theorem C5_general_override (llmResp user_query : String)
    (hkw : keyword_classify (pyStrip (pyLower user_query)) = some "general")
    (_hdata : 1 ≤ (DATA_KEYWORDS.filter
        (fun kw => reWordSearch kw (pyStrip (pyLower user_query)))).length)
    (hlen : (pySplit (pyStrip (pyLower user_query))).length ≤ 10)
    (hq : strIn "?" (pyStrip (pyLower user_query)) = true) :
    classify llmResp user_query true = "data" := by
  unfold classify
  by_cases hfu : is_followup (pyStrip (pyLower user_query)) = true
  · rw [if_pos (by simp [hfu])]
  · rw [if_neg (by simp [hfu])]
    rw [hkw]
    show (if (("general" == "general") && true
        && decide ((pySplit (pyStrip (pyLower user_query))).length ≤ 10)
        && strIn "?" (pyStrip (pyLower user_query))) = true
      then "data" else "general") = "data"
    rw [if_pos (by simp [hlen, hq])]

/-- Witness for C5 on a short question with a greeting and data phrases. -/
theorem C5_general_override_witness :
    classify "resp" "hello transaction count?" true = "data" :=
  C5_general_override "resp" "hello transaction count?"
    (by decide) (by decide) (by decide) (by decide)

/-- C6: the data-track conversation history after `process_query` is the
saved-to-history map exactly when the run reached the SUCCESS terminal, and
is unchanged on the general, translation-failed, validation-blocked and
execution-failed terminals. -/
theorem C6_history_on_success (routeFn : Bool → String)
    (transl : Except String String) (execFn : String → Except String DataFrame)
    (generalOracle : Except String String) (hyps : List Hypothesis)
    (st : EngineState) (user_query : String) (cid : Option String) :
    (process_query routeFn transl execFn generalOracle hyps st user_query cid).2.conversations
      = if (process_query routeFn transl execFn generalOracle hyps st
              user_query cid).1.terminal = Terminal.success
        then save_to_history st.conversations cid user_query
          (((process_query routeFn transl execFn generalOracle hyps st
              user_query cid).1.sql).getD "")
        else st.conversations := by
  unfold process_query
  by_cases hg : (routeFn (hasDataHistory st cid) == "general") = true
  · rw [if_pos hg]
    unfold handle_general_query
    cases generalOracle <;> simp
  · rw [if_neg hg]
    cases transl with
    | error e => simp
    | ok sql =>
      simp only
      by_cases hv : validate_query sql = true
      · rw [if_neg (by simp [hv])]
        cases hexec : execFn sql with
        | error e => simp
        | ok df => simp
      · rw [if_pos (by simp [Bool.not_eq_true] at hv; simp [hv])]
        simp

end Shinchan
